import Mathlib

/-!
Verification of the Capital1 agricultural advisor bot.

This file gives a shallow embedding, in Lean 4, of the pure logic of the
repository: the query classifier (`src/agricultural_advisor_bot.py`,
class `QueryClassifier`), the crop/location extractor and session state of
`AgriculturalAdvisorBot`, and the SQLite helpers of `src/init_mandi_soil.py`.
Python strings are modelled as Lean `String` (sequences of Unicode scalar
values); Python's `needle in hay` substring test is `inStr`; `str.lower()`
is `lowerStr` (ASCII case mapping, the identity on the Devanagari keywords
used by the repository); `str.title()` on the single-word ASCII crop and
city names is `pyTitle`.  External effects (the NLP pipeline, HTTP calls to
the LLM endpoint, and SQLite query execution) are modelled by explicit
parameters: an `Option`/`Except` argument carries either the external
result or the exception the call raised.
-/

namespace AgriBot

/-! ## String primitives modelling the Python operations used by the code -/

/-- Model of Python `str.lower()`: map `Char.toLower` over the characters.
Only ASCII letters change case; the Devanagari keyword characters used in
the repository are caseless in Python as well. -/
def lowerStr (s : String) : String := String.mk (s.data.map Char.toLower)

/-- `a` is a prefix of `b`, on character lists. -/
def isPrefixOfC : List Char → List Char → Bool
  | [], _ => true
  | _ :: _, [] => false
  | a :: as, b :: bs => a == b && isPrefixOfC as bs

/-- `a` is a suffix of `b`, on character lists. -/
def isSuffixOfC (a b : List Char) : Bool := isPrefixOfC a.reverse b.reverse

/-- `needle` occurs as a contiguous substring of `hay` (character lists). -/
def containsSub : List Char → List Char → Bool
  | needle, [] => needle.isEmpty
  | needle, c :: t => isPrefixOfC needle (c :: t) || containsSub needle t

/-- Model of Python's `needle in hay` on strings. -/
def inStr (needle hay : String) : Bool := containsSub needle.data hay.data

/-- Model of Python's `s.startswith(p)`. -/
def pyStartsWith (s p : String) : Bool := isPrefixOfC p.data s.data

/-- Model of Python's `s.endswith(p)`. -/
def pyEndsWith (s p : String) : Bool := isSuffixOfC p.data s.data

/-! ## `QueryClassifier._fallback_classification`
(`src/agricultural_advisor_bot.py`, lines 72-139).
The keyword lists are copied verbatim from the source, including the
duplicated entry `"सूखा"` in the weather list. -/

def weather_keywords : List String :=
  ["weather", "temperature", "rain", "rainfall", "drought", "flood",
   "humidity", "wind", "climate", "forecast", "seasonal", "monsoon",
   "hot", "cold", "dry", "wet", "storm", "cyclone", "heat wave",
   "frost", "hail", "snow", "sunny", "cloudy", "overcast", "mausam", "baarish",
   "मौसम", "तापमान", "बारिश", "सूखा", "बाढ़", "आर्द्रता", "हवा", "जलवायु",
   "पूर्वानुमान", "मानसून", "गर्म", "ठंडा", "सूखा", "गीला", "तूफान"]

def policy_keywords : List String :=
  ["policy", "scheme", "subsidy", "loan", "insurance", "support",
   "government", "pm kisan", "pmksy", "soil health", "mandi",
   "procurement", "msp", "fertilizer", "seed", "equipment",
   "guidelines", "procedure", "application", "eligibility",
   "benefit", "assistance", "fund", "grant", "certificate", "yojana", "sarkar"]

def price_keywords : List String :=
  ["price", "rate", "cost", "worth", "value", "mandi", "market", "bhav", "dam",
   "mulya", "keemat", "rupees", "rs", "quintal", "ton", "kg", "per", "auction",
   "मूल्य", "दर", "कीमत", "भाव", "मंडी", "बाजार", "रुपये", "क्विंटल", "किलो"]

def technical_keywords : List String :=
  ["tractor", "equipment", "machine", "system", "technology", "repair", "maintenance",
   "digital", "automated", "troubleshoot", "fix", "technical"]

def general_keywords : List String :=
  ["what is", "tell me about", "information about", "guide for", "basic",
   "how to start", "beginner", "overview", "introduction", "general"]

def agriculture_keywords : List String :=
  ["crop", "farming", "agriculture", "soil", "fertilizer", "pesticide",
   "irrigation", "harvest", "planting", "seeding", "pest", "disease",
   "yield", "production", "storage", "transport", "organic", "traditional", "modern",
   "फसल", "खेती", "कृषि", "मिट्टी", "खाद", "कीटनाशक", "सिंचाई", "फसल कटाई",
   "बुवाई", "बीज", "कीट", "रोग", "उपज", "उत्पादन", "भंडारण", "परिवहन"]

/-- `sum(1 for keyword in kws if keyword in query_lower)`. -/
def scoreOf (kws : List String) (query_lower : String) : Nat :=
  List.countP (fun k => inStr k query_lower) kws

/-- `QueryClassifier._fallback_classification`: lower-case the query, score
each keyword list, and return the first category with positive score in the
order weather, policy, price, technical, general, agriculture; else
"general". -/
def fallback_classification (query : String) : String :=
  let query_lower := lowerStr query
  if scoreOf weather_keywords query_lower > 0 then "weather"
  else if scoreOf policy_keywords query_lower > 0 then "policy"
  else if scoreOf price_keywords query_lower > 0 then "price"
  else if scoreOf technical_keywords query_lower > 0 then "technical"
  else if scoreOf general_keywords query_lower > 0 then "general"
  else if scoreOf agriculture_keywords query_lower > 0 then "agriculture"
  else "general"

/-- The six category scores of a query, in the fixed priority order stated
by the specification (weather, policy, price, technical, general,
agriculture). -/
def categoryScores (query : String) : List (String × Nat) :=
  let query_lower := lowerStr query
  [("weather", scoreOf weather_keywords query_lower),
   ("policy", scoreOf policy_keywords query_lower),
   ("price", scoreOf price_keywords query_lower),
   ("technical", scoreOf technical_keywords query_lower),
   ("general", scoreOf general_keywords query_lower),
   ("agriculture", scoreOf agriculture_keywords query_lower)]

/-- Spec-side reformulation of the fallback classifier: the first category
in the priority list whose score is nonzero, defaulting to "general" when
every score is zero. -/
def firstNonzeroCategory (query : String) : String :=
  match (categoryScores query).find? (fun p => decide (p.2 ≠ 0)) with
  | some p => p.1
  | none => "general"

/-- Claim C1: for every query string, the keyword fallback classifier
returns the first category whose keyword score (the number of keywords of
the category occurring as substrings of the lower-cased query) is nonzero
in the priority order weather, policy, price, technical, general,
agriculture, and returns "general" when all six scores are zero. -/
theorem claim_C1_fallback_first_nonzero (q : String) :
    fallback_classification q = firstNonzeroCategory q := by
  simp only [fallback_classification, firstNonzeroCategory, categoryScores]
  by_cases h1 : scoreOf weather_keywords (lowerStr q) = 0 <;>
  by_cases h2 : scoreOf policy_keywords (lowerStr q) = 0 <;>
  by_cases h3 : scoreOf price_keywords (lowerStr q) = 0 <;>
  by_cases h4 : scoreOf technical_keywords (lowerStr q) = 0 <;>
  by_cases h5 : scoreOf general_keywords (lowerStr q) = 0 <;>
  by_cases h6 : scoreOf agriculture_keywords (lowerStr q) = 0 <;>
  simp [h1, h2, h3, h4, h5, h6, List.find?, Nat.pos_iff_ne_zero]

/-! ## Purity of the fallback classifier (claim C6) -/

theorem char_toNat_ofNat (n : Nat) (h : n.isValidChar) : (Char.ofNat n).toNat = n := by
  simp [Char.ofNat, dif_pos h, Char.ofNatAux, Char.toNat, UInt32.toNat]

theorem toLower_idem (c : Char) : c.toLower.toLower = c.toLower := by
  simp only [Char.toLower]
  split
  · rename_i h
    have hv : (c.toNat + 32).isValidChar := Or.inl (by omega)
    rw [char_toNat_ofNat _ hv, if_neg (by omega)]
  · rfl

theorem lowerStr_idem (s : String) : lowerStr (lowerStr s) = lowerStr s := by
  simp [lowerStr, List.map_map, Function.comp_def, toLower_idem]

/-- Claim C6: the keyword fallback classification is a pure function of the
lower-cased query: classifying the lower-cased query gives the same result
as classifying the query, and two queries with equal lower-casings are
classified identically. -/
theorem claim_C6_fallback_pure_in_lowercase :
    (∀ q : String, fallback_classification (lowerStr q) = fallback_classification q)
    ∧ ∀ q₁ q₂ : String, lowerStr q₁ = lowerStr q₂ →
        fallback_classification q₁ = fallback_classification q₂ := by
  constructor
  · intro q
    simp only [fallback_classification, lowerStr_idem]
  · intro q₁ q₂ h
    simp only [fallback_classification, h]

/-- Closed witness for claim C6, at concrete inputs: "RAIN" and "rain"
lower-case identically and are both classified "weather". -/
theorem claim_C6_witness :
    fallback_classification (lowerStr "RAIN") = fallback_classification "RAIN"
    ∧ (lowerStr "RAIN" = lowerStr "rain"
        → fallback_classification "RAIN" = fallback_classification "rain") :=
  ⟨claim_C6_fallback_pure_in_lowercase.1 "RAIN",
   fun h => claim_C6_fallback_pure_in_lowercase.2 "RAIN" "rain" h⟩

/-! ## `QueryClassifier.classify_query`
(`src/agricultural_advisor_bot.py`, lines 42-70).
The external NLP pipeline call `self.nlp_pipeline.process_query(query)` is
modelled by the parameter `pipeline_primary_intent`: `some label` is a run
in which the pipeline returned `label` as `result.primary_intent`, and
`none` is a run in which the call raised an exception (caught by the
`except` branch). -/

def intent_mappings : List (String × List String) :=
  [("weather", ["weather_query", "weather_inquiry", "climate_question",
                "temperature_question", "rainfall_question"]),
   ("policy", ["policy_query", "policy_inquiry", "scheme_question",
               "subsidy_question", "government_help"]),
   ("price", ["price_query", "market_question", "price_inquiry", "mandi_question"]),
   ("technical", ["technical_support", "equipment_question",
                  "technology_question", "repair_question"]),
   ("general", ["general_inquiry", "basic_question", "information_question"]),
   ("agriculture", ["crop_advice", "crop_question", "farming_advice",
                    "soil_question", "pest_question", "irrigation_question"])]

/-- The `for category, intents in self.intent_mappings.items()` loop:
return the first category one of whose intent names is a substring of the
lower-cased primary intent, if any. -/
def mapIntentLoop (primary_intent : String) :
    List (String × List String) → Option String
  | [] => none
  | (category, intents) :: rest =>
    if intents.any (fun i => inStr i primary_intent) then some category
    else mapIntentLoop primary_intent rest

/-- `QueryClassifier.classify_query`. -/
def classify_query (pipeline_primary_intent : Option String) (query : String) :
    String :=
  match pipeline_primary_intent with
  | none => fallback_classification query
  | some label =>
    let primary_intent := lowerStr label
    match mapIntentLoop primary_intent intent_mappings with
    | some category => category
    | none => fallback_classification query

/-- Spec-side reformulation of the mapping step: the first category of
`intent_mappings` one of whose static intent names is contained in the
label, as a `find?` over the mapping list. -/
def firstMappedCategory (label : String) : Option String :=
  ((intent_mappings).find? (fun p => p.2.any (fun i => inStr i label))).map Prod.fst

theorem mapIntentLoop_eq_find (label : String) :
    ∀ l : List (String × List String),
      mapIntentLoop label l
        = (l.find? (fun p => p.2.any (fun i => inStr i label))).map Prod.fst := by
  intro l
  induction l with
  | nil => rfl
  | cons p rest ih =>
    rcases p with ⟨category, intents⟩
    by_cases h : (intents.any (fun i => inStr i label)) = true
    · simp [mapIntentLoop, List.find?, h]
    · simp only [Bool.not_eq_true] at h
      simp [mapIntentLoop, List.find?, h, ih]

def the_six_categories : List String :=
  ["weather", "policy", "price", "technical", "agriculture", "general"]

theorem fallback_mem_six (q : String) :
    fallback_classification q ∈ the_six_categories := by
  simp only [fallback_classification]
  split_ifs <;> simp [the_six_categories]

theorem mapIntentLoop_mem_keys (label : String)
    (l : List (String × List String)) (c : String)
    (h : mapIntentLoop label l = some c) : c ∈ l.map Prod.fst := by
  induction l with
  | nil => simp [mapIntentLoop] at h
  | cons p rest ih =>
    rcases p with ⟨category, intents⟩
    by_cases hm : (intents.any (fun i => inStr i label)) = true
    · simp [mapIntentLoop, hm] at h
      simp [h]
    · simp only [Bool.not_eq_true] at hm
      simp only [mapIntentLoop, hm, Bool.false_eq_true, if_false] at h
      simp [ih h]

/-- Claim C2: `classify_query` returns one of exactly the six category
strings on every path (pipeline label mapped, no mapping match, and
exception fallback). -/
theorem claim_C2_classify_returns_six (pipeline_primary_intent : Option String)
    (q : String) :
    classify_query pipeline_primary_intent q ∈ the_six_categories := by
  match pipeline_primary_intent with
  | none => exact fallback_mem_six q
  | some label =>
    simp only [classify_query]
    cases hm : mapIntentLoop (lowerStr label) intent_mappings with
    | none => exact fallback_mem_six q
    | some c =>
      have hmem := mapIntentLoop_mem_keys (lowerStr label) intent_mappings c hm
      have hsub : ∀ x ∈ intent_mappings.map Prod.fst, x ∈ the_six_categories := by
        decide
      exact hsub c hmem

/-- Claim C3: on a pipeline exception (`none`), or when no static mapping
entry is contained in the lower-cased pipeline label, `classify_query`
returns exactly the keyword fallback result; when some entry matches,
`classify_query` returns the first matching category and does not consult
the fallback (its result does not depend on the query). -/
theorem claim_C3_mapping_or_fallback (label q q' : String) :
    classify_query none q = fallback_classification q
    ∧ (firstMappedCategory (lowerStr label) = none →
        classify_query (some label) q = fallback_classification q)
    ∧ ∀ c, firstMappedCategory (lowerStr label) = some c →
        classify_query (some label) q = c
        ∧ classify_query (some label) q = classify_query (some label) q' := by
  refine ⟨rfl, ?_, ?_⟩
  · intro h
    simp only [firstMappedCategory, Option.map_eq_none'] at h
    simp [classify_query, mapIntentLoop_eq_find, h]
  · intro c h
    have hl : mapIntentLoop (lowerStr label) intent_mappings = some c := by
      rw [mapIntentLoop_eq_find]
      exact h
    simp [classify_query, hl]

/-- Closed witness for claim C3: the label "weather_query detected" maps to
"weather" for any query; the label "greeting" maps to nothing, so the
keyword fallback decides; `none` (pipeline exception) also falls back. -/
theorem claim_C3_witness :
    classify_query none "hello" = fallback_classification "hello"
    ∧ classify_query (some "WEATHER_QUERY detected") "hello" = "weather"
    ∧ classify_query (some "greeting") "mandi bhav" = fallback_classification "mandi bhav" :=
  ⟨(claim_C3_mapping_or_fallback "x" "hello" "hello").1,
   ((claim_C3_mapping_or_fallback "WEATHER_QUERY detected" "hello" "hello").2.2
      "weather" (by decide)).1,
   (claim_C3_mapping_or_fallback "greeting" "mandi bhav" "mandi bhav").2.1 (by decide)⟩

/-! ## Priority behaviour on "mandi" and "rain" (claim C5) -/

/-- Claim C5: a query whose lower-cased form contains "mandi" but no
weather keyword is classified "policy" (not "price"), because "mandi" is in
the policy keyword list and policy precedes price in the priority order;
and a query whose lower-cased form contains "rain" is classified
"weather". -/
theorem claim_C5_mandi_policy_rain_weather (q : String) :
    ((inStr "mandi" (lowerStr q) = true
      ∧ ∀ k ∈ weather_keywords, inStr k (lowerStr q) = false) →
        fallback_classification q = "policy")
    ∧ (inStr "rain" (lowerStr q) = true → fallback_classification q = "weather") := by
  constructor
  · rintro ⟨hm, hw⟩
    have hw0 : scoreOf weather_keywords (lowerStr q) = 0 := by
      rw [scoreOf, List.countP_eq_zero]
      intro k hk
      simp [hw k hk]
    have hp : 0 < scoreOf policy_keywords (lowerStr q) := by
      rw [scoreOf, List.countP_pos_iff]
      exact ⟨"mandi", by decide, hm⟩
    simp [fallback_classification, hw0, hp]
  · intro hr
    have hwp : 0 < scoreOf weather_keywords (lowerStr q) := by
      rw [scoreOf, List.countP_pos_iff]
      exact ⟨"rain", by decide, hr⟩
    simp [fallback_classification, hwp]

/-- Closed witness for claim C5: "mandi" alone is classified "policy", and
"will it rain" is classified "weather". -/
theorem claim_C5_witness :
    fallback_classification "mandi" = "policy"
    ∧ fallback_classification "will it rain" = "weather" :=
  ⟨(claim_C5_mandi_policy_rain_weather "mandi").1 ⟨by decide, by decide⟩,
   (claim_C5_mandi_policy_rain_weather "will it rain").2 (by decide)⟩

/-! ## Claim C4: error handling of external calls.

`GroqAgriculturalAdvisor.generate_general_advice`
(`src/agricultural_advisor_bot.py`, lines 437-493) wraps its HTTP POST in
`try/except` and returns `f"❌ Error generating advice: {e}"` on any
exception; with no API key it returns `"❌ Groq API key not found."`.  The
whole `try` body — prompt assembly, `requests.post`, `raise_for_status`,
JSON field extraction and `.strip()` — is modelled by the `httpResult`
parameter: `Except.ok content` is a successful run producing the final
content string, `Except.error e` is a run in which any of those steps
raised exception `e`.

`get_latest_price` (`src/init_mandi_soil.py`, lines 18-34) and
`AgriculturalAdvisorBot.get_latest_prices_all_markets`
(`src/agricultural_advisor_bot.py`, lines 582-600) execute SQLite queries
with NO `try/except`: the `dbResult` parameter models
`conn.execute(...).fetchone()` / `fetchall()`, and an exception raised
there propagates, which the `Except`-valued return type records. -/

/-- One `mandi_prices` row as selected by `get_latest_price`:
Market, Commodity, Variety, Arrival_Date, Modal_Price. -/
structure PriceRow where
  market : String
  commodity : String
  variety : String
  arrival_date : String
  modal_price : String
deriving DecidableEq

/-- `get_latest_price` from `src/init_mandi_soil.py`: no `try/except`, so a
database exception propagates to the caller. -/
def get_latest_price (city crop : String)
    (dbResult : Except String (Option PriceRow)) : Except String String := do
  let result ← dbResult
  match result with
  | some row =>
    pure ("Latest " ++ row.commodity ++ " (" ++ row.variety ++ ") price in "
      ++ city ++ " (" ++ row.market ++ ") on " ++ row.arrival_date
      ++ ": ₹" ++ row.modal_price ++ "/quintal")
  | none => pure ("No price data found for " ++ crop ++ " in " ++ city ++ ".")

/-- `AgriculturalAdvisorBot.get_latest_prices_all_markets`: executes its
grouped SQLite query with no `try/except` and returns the fetched
(market, date, price) rows; a database exception propagates. -/
def get_latest_prices_all_markets
    (dbResult : Except String (List (String × String × String))) :
    Except String (List (String × String × String)) := do
  let results ← dbResult
  pure results

/-- `GroqAgriculturalAdvisor.generate_general_advice`: missing API key and
HTTP failure both yield a ❌-prefixed user-facing string. -/
def generate_general_advice (api_key : Option String)
    (httpResult : Except String String) : String :=
  match api_key with
  | none => "❌ Groq API key not found."
  | some _ =>
    match httpResult with
    | Except.ok content => content
    | Except.error e => "❌ Error generating advice: " ++ e

/-- Claim C4 counterexample: the claim says every external call (including
every SQLite query) is wrapped so that no exception can propagate, but
`get_latest_price` has no `try/except`: at this concrete input a database
exception propagates to the caller unchanged. -/
theorem claim_C4_counterexample :
    get_latest_price "Agra" "Wheat" (Except.error "no such table: mandi_prices")
      = Except.error "no such table: mandi_prices" := rfl

theorem isPrefixOfC_append (a b c : List Char) (h : isPrefixOfC a b = true) :
    isPrefixOfC a (b ++ c) = true := by
  induction a generalizing b with
  | nil => simp [isPrefixOfC]
  | cons x xs ih =>
    cases b with
    | nil => simp [isPrefixOfC] at h
    | cons y ys =>
      simp only [isPrefixOfC, Bool.and_eq_true] at h ⊢
      exact ⟨h.1, ih ys h.2⟩

/-- Claim C4, amended: the LLM HTTP POST path is wrapped — on any exception
`generate_general_advice` returns a ❌-prefixed string, and with no API key
it returns the ❌ key message — but the SQLite helpers `get_latest_price`
and `get_latest_prices_all_markets` are not wrapped and propagate any
exception to their caller. -/
theorem claim_C4_amended_wrapping (key e city crop : String) :
    pyStartsWith (generate_general_advice (some key) (Except.error e)) "❌" = true
    ∧ generate_general_advice none (Except.error e) = "❌ Groq API key not found."
    ∧ get_latest_price city crop (Except.error e) = Except.error e
    ∧ get_latest_prices_all_markets (Except.error e) = Except.error e := by
  refine ⟨?_, rfl, rfl, rfl⟩
  show isPrefixOfC "❌".data (("❌ Error generating advice: " ++ e)).data = true
  rw [String.data_append]
  exact isPrefixOfC_append _ _ _ (by decide)

/-! ## Claim C7: `init_db` (`src/init_mandi_soil.py`, lines 4-16).

The SQLite database is modelled as the contents of its two tables, each a
list of CSV rows.  `pd.read_csv` + `DataFrame.to_sql(..., if_exists =
"replace")` drops any existing table and writes exactly the CSV rows, so
`init_db` is the function that replaces both tables wholesale.  Every
other database access in the repository (`get_latest_price`,
`get_soil_health`, `get_latest_prices_all_markets`, the Streamlit
statistics queries) is a SELECT, modelled in this file as a value-returning
read that cannot produce a new database state. -/

structure Db where
  mandi_prices : List (List String)
  soil_health : List (List String)
deriving DecidableEq

/-- `init_db(price_csv, soil_csv, db_path)`: store the prices CSV as table
`mandi_prices` and the soil CSV as table `soil_health`, replacing whatever
the tables held. -/
def init_db (price_csv_rows soil_csv_rows : List (List String)) (db : Db) : Db :=
  { mandi_prices := price_csv_rows, soil_health := soil_csv_rows }

/-- Claim C7: after `init_db`, `mandi_prices` holds exactly the prices CSV
rows and `soil_health` exactly the soil CSV rows, regardless of the prior
contents of the database (wholesale replacement, no append or merge). -/
theorem claim_C7_init_db_wholesale_replace
    (price_csv_rows soil_csv_rows : List (List String)) (db db' : Db) :
    (init_db price_csv_rows soil_csv_rows db).mandi_prices = price_csv_rows
    ∧ (init_db price_csv_rows soil_csv_rows db).soil_health = soil_csv_rows
    ∧ init_db price_csv_rows soil_csv_rows db
        = init_db price_csv_rows soil_csv_rows db' :=
  ⟨rfl, rfl, rfl⟩

/-! ## Claims C8 and C9: session state of `AgriculturalAdvisorBot`.

The in-memory session state set up in `__init__` is the four fields below;
the setters return the new state together with the confirmation message the
Python method returns. -/

structure BotState where
  user_city : Option String
  user_crop : Option String
  user_language : String
  is_initialized : Bool
deriving DecidableEq

/-- The state established by `AgriculturalAdvisorBot.__init__`. -/
def initial_bot_state : BotState :=
  { user_city := none, user_crop := none, user_language := "English",
    is_initialized := false }

/-- `set_user_city`: sets the city and marks the session initialized. -/
def set_user_city (s : BotState) (city : String) : BotState × String :=
  ({ s with user_city := some city, is_initialized := true },
   "✅ City set to: " ++ city
     ++ "\n🌤️ Now I can provide weather-based agricultural advice for your area!")

/-- `set_user_crop`: sets only the primary crop. -/
def set_user_crop (s : BotState) (crop : String) : BotState × String :=
  ({ s with user_crop := some crop },
   "✅ Primary crop set to: " ++ crop
     ++ "\n🌾 I\x27ll provide crop-specific advice for " ++ crop ++ "!")

/-- `set_user_language`: sets only the preferred language. -/
def set_user_language (s : BotState) (language : String) : BotState × String :=
  ({ s with user_language := language },
   "✅ Language set to: " ++ language
     ++ "\n🌍 I\x27ll communicate in " ++ language ++ "!")

/-- `is_user_initialized`: `self.is_initialized and self.user_city is not
None`. -/
def is_user_initialized (s : BotState) : Bool :=
  s.is_initialized && s.user_city.isSome

/-- Claim C8: each setter mutates only its own field plus the documented
flag: `set_user_city` sets `user_city` and `is_initialized := true` leaving
crop and language unchanged; `set_user_crop` changes only `user_crop`;
`set_user_language` changes only `user_language`; neither of the latter two
touches `is_initialized`, and no setter resets it to `false`. -/
theorem claim_C8_setters_frame (s : BotState) (city crop language : String) :
    ((set_user_city s city).1.user_city = some city
      ∧ (set_user_city s city).1.is_initialized = true
      ∧ (set_user_city s city).1.user_crop = s.user_crop
      ∧ (set_user_city s city).1.user_language = s.user_language)
    ∧ (set_user_crop s crop).1 = { s with user_crop := some crop }
    ∧ (set_user_language s language).1 = { s with user_language := language }
    ∧ (set_user_crop s crop).1.is_initialized = s.is_initialized
    ∧ (set_user_language s language).1.is_initialized = s.is_initialized :=
  ⟨⟨rfl, rfl, rfl, rfl⟩, rfl, rfl, rfl, rfl⟩

/-- The `Setup Required` early return of `process_query`. -/
def setup_required_message : String :=
  "🎯 **Setup Required**\n\n📍 Please complete the initial setup first. Use \x27help\x27 to see available commands."

/-- The command words exempted from the setup gate in `process_query`. -/
def setup_command_words : List String := ["help", "city", "crop", "language", "stats"]

/-- The guard at the top of `AgriculturalAdvisorBot.process_query`
(`src/agricultural_advisor_bot.py`, lines 603-607).  The rest of the method
— classification and dispatch to the per-intent handler — is abstracted by
the `classify` and `handle` parameters; none of the dispatch paths assigns
a session field, so the state component is returned unchanged on both
branches. -/
def process_query_gate (classify : String → String)
    (handle : String → String → BotState → String)
    (s : BotState) (query : String) : String × BotState :=
  if !(is_user_initialized s)
      && !(setup_command_words.any (fun cmd => inStr cmd (lowerStr query))) then
    (setup_required_message, s)
  else
    (handle (classify query) query s, s)

/-- Claim C9: for a non-initialized session and a query whose lower-cased
form contains none of "help", "city", "crop", "language", "stats",
`process_query` returns the Setup Required message with the state
unchanged, and the result does not depend on the classifier or on any
intent handler (they are not invoked). -/
theorem claim_C9_setup_gate (s : BotState) (q : String)
    (classify : String → String) (handle : String → String → BotState → String) :
    is_user_initialized s = false →
    (∀ cmd ∈ setup_command_words, inStr cmd (lowerStr q) = false) →
    process_query_gate classify handle s q = (setup_required_message, s) := by
  intro h1 h2
  have ha : (setup_command_words.any (fun cmd => inStr cmd (lowerStr q))) = false := by
    rw [List.any_eq_false]
    intro cmd hcmd
    simp [h2 cmd hcmd]
  simp [process_query_gate, h1, ha]

/-- Closed witness for claim C9: a fresh (uninitialized) session and the
query "what is the wheat price" hit the gate whatever classifier and
handler are plugged in. -/
theorem claim_C9_witness :
    process_query_gate (fun _ => "general") (fun _ _ _ => "")
        initial_bot_state "what is the wheat price"
      = (setup_required_message, initial_bot_state) :=
  claim_C9_setup_gate initial_bot_state "what is the wheat price"
    (fun _ => "general") (fun _ _ _ => "") (by decide) (by decide)

/-! ## Claim C10: `AgriculturalAdvisorBot._extract_crop_and_location`
(`src/agricultural_advisor_bot.py`, lines 949-980). -/

def crops_english : List String :=
  ["wheat", "rice", "maize", "cotton", "potato", "tomato", "sugarcane",
   "pulses", "oilseeds"]

def crops_hindi : List String :=
  ["गेहूं", "चावल", "मक्का", "कपास", "आलू", "टमाटर", "गन्ना", "दालें", "तिलहन"]

def all_crops : List String := crops_english ++ crops_hindi

/-- Model of Python `str.title()` restricted to the inputs the code titles
(single lower-case ASCII words): upper-case a letter that follows a
non-letter, lower-case a letter that follows a letter. -/
def titleAux : Bool → List Char → List Char
  | _, [] => []
  | prev_alpha, c :: rest =>
    (if prev_alpha then c.toLower else c.toUpper) :: titleAux c.isAlpha rest

def pyTitle (s : String) : String := String.mk (titleAux false s.data)

/-- The per-crop test of the extraction loop:
`f" {c} " in f" {query_lower} " or query_lower.startswith(c) or
query_lower.endswith(c)`. -/
def crop_word_match (query_lower c : String) : Bool :=
  inStr (" " ++ c ++ " ") (" " ++ query_lower ++ " ")
  || pyStartsWith query_lower c || pyEndsWith query_lower c

/-- The `for i, c in enumerate(all_crops)` loop of
`_extract_crop_and_location`: first crop matching at a word boundary wins;
a Hindi crop (index ≥ `len(crops_english)`) is mapped back to the English
crop at the same position before title-casing. -/
def extract_crop_loop (query_lower : String) : List (Nat × String) → Option String
  | [] => none
  | (i, c) :: rest =>
    if crop_word_match query_lower c then
      some (if i ≥ crops_english.length
            then pyTitle (crops_english.getD (i - crops_english.length) "")
            else pyTitle c)
    else extract_crop_loop query_lower rest

def locations : List String :=
  ["agra", "kannauj", "kanpur", "lucknow", "unnao", "mumbai", "delhi", "bangalore"]

/-- The `for loc in locations` loop: plain substring containment, first
match wins, result title-cased. -/
def extract_location_loop (query_lower : String) : List String → Option String
  | [] => none
  | loc :: rest =>
    if inStr loc query_lower then some (pyTitle loc)
    else extract_location_loop query_lower rest

/-- `_extract_crop_and_location`: returns the (crop, location) pair. -/
def extract_crop_and_location (query : String) : Option String × Option String :=
  let query_lower := lowerStr query
  (extract_crop_loop query_lower all_crops.enum,
   extract_location_loop query_lower locations)

theorem extract_crop_loop_spec (query_lower : String) (l : List (Nat × String))
    (x : String) (h : extract_crop_loop query_lower l = some x) :
    ∃ p ∈ l, crop_word_match query_lower p.2 = true
      ∧ x = (if p.1 ≥ crops_english.length
             then pyTitle (crops_english.getD (p.1 - crops_english.length) "")
             else pyTitle p.2) := by
  induction l with
  | nil => simp [extract_crop_loop] at h
  | cons p rest ih =>
    rcases p with ⟨i, c⟩
    by_cases hm : crop_word_match query_lower c = true
    · simp only [extract_crop_loop, hm, if_true, Option.some.injEq] at h
      exact ⟨(i, c), List.mem_cons_self _ _, hm, h.symm⟩
    · simp only [Bool.not_eq_true] at hm
      simp only [extract_crop_loop, hm, Bool.false_eq_true, if_false] at h
      obtain ⟨p, hp, hpm, hx⟩ := ih h
      exact ⟨p, List.mem_cons_of_mem _ hp, hpm, hx⟩

theorem extract_location_loop_spec (query_lower : String) (l : List String)
    (y : String) (h : extract_location_loop query_lower l = some y) :
    ∃ loc ∈ l, inStr loc query_lower = true ∧ y = pyTitle loc := by
  induction l with
  | nil => simp [extract_location_loop] at h
  | cons loc rest ih =>
    by_cases hm : inStr loc query_lower = true
    · simp only [extract_location_loop, hm, if_true, Option.some.injEq] at h
      exact ⟨loc, List.mem_cons_self _ _, hm, h.symm⟩
    · simp only [Bool.not_eq_true] at hm
      simp only [extract_location_loop, hm, Bool.false_eq_true, if_false] at h
      obtain ⟨loc', hl, hlm, hy⟩ := ih h
      exact ⟨loc', List.mem_cons_of_mem _ hl, hlm, hy⟩

/-- Claim C10: the extracted crop is `none` or the title-cased form of one
of the nine English crop names (a Hindi crop word having been mapped back
to its English counterpart), a crop being matched only at a word boundary
(surrounded by spaces, or at the start or end of the lower-cased query);
the extracted location is `none` or the title-cased form of one of the
eight listed city names. -/
theorem claim_C10_extract_crop_location (q : String) :
    (∀ x, (extract_crop_and_location q).1 = some x →
       x ∈ crops_english.map pyTitle
       ∧ ∃ c ∈ all_crops, crop_word_match (lowerStr q) c = true)
    ∧ ∀ y, (extract_crop_and_location q).2 = some y →
        y ∈ locations.map pyTitle := by
  have key : ∀ p ∈ all_crops.enum,
      p.2 ∈ all_crops
      ∧ (if p.1 ≥ crops_english.length
         then pyTitle (crops_english.getD (p.1 - crops_english.length) "")
         else pyTitle p.2) ∈ crops_english.map pyTitle := by decide
  constructor
  · intro x hx
    simp only [extract_crop_and_location] at hx
    obtain ⟨p, hp, hpm, hxval⟩ := extract_crop_loop_spec (lowerStr q) _ x hx
    obtain ⟨hmem, htitle⟩ := key p hp
    exact ⟨hxval ▸ htitle, ⟨p.2, hmem, hpm⟩⟩
  · intro y hy
    simp only [extract_crop_and_location] at hy
    obtain ⟨loc, hl, _, hyval⟩ := extract_location_loop_spec (lowerStr q) _ y hy
    exact hyval ▸ List.mem_map_of_mem pyTitle hl

/-- Closed witness for claim C10: on "wheat price in agra" the extractor
returns crop "Wheat" and location "Agra", both in the allowed title-cased
sets, with a boundary-matched crop word. -/
theorem claim_C10_witness :
    ("Wheat" ∈ crops_english.map pyTitle
      ∧ ∃ c ∈ all_crops, crop_word_match (lowerStr "wheat price in agra") c = true)
    ∧ "Agra" ∈ locations.map pyTitle :=
  ⟨(claim_C10_extract_crop_location "wheat price in agra").1 "Wheat" (by decide),
   (claim_C10_extract_crop_location "wheat price in agra").2 "Agra" (by decide)⟩

end AgriBot
